import Mathlib

/-!
Verification of the Decision Fusion & Calibration Engine of the
Predictive-Transaction-Intelligence backend (FastAPI service).

The embedding follows `backend/src/api/main.py` and
`backend/src/api/routers/simulation.py`.  Conventions:

* Python floats are idealised as `ℚ`.  Non-integer literals are written with
  `mkRat` (for example `mkRat 3 10` for `0.3`) so that concrete values reduce
  in the kernel (`Rat.add`/`Rat.mul`/`Rat.div` are `@[irreducible]`, `mkRat`
  is not).
* Python ints are `ℤ` (`account_age_days`, `hour`, model labels) or `ℕ`
  (counts, sizes).
* `str.strip`/`str.lower` are modelled by `pyStrip`/`pyLower` over the
  character list of the string (the repository only ever feeds ASCII channel
  and KYC values).
* The external classifier artifact (`model.predict`/`model.predict_proba`)
  is an opaque collaborator: its label and fraud-class probability enter the
  embedded functions as arguments.
* Wall-clock reads (`datetime.utcnow()`) and ambient randomness
  (`random.choice`, `random.randint`) are injected as explicit arguments,
  matching the spec's design note that clock and random source must be
  injectable.
-/

/-- Models Python's built-in banker's rounding (`round`) to an integer, for a
rational argument: round to nearest, ties to even.  The fractional part is
compared through integer arithmetic on the numerator (`f = num - ⌊q⌋ * den`
is the fractional numerator over `q.den`), so the function reduces in the
kernel. -/
def roundHalfEven (q : ℚ) : ℤ :=
  let f : ℤ := q.num - ⌊q⌋ * (q.den : ℤ)
  if 2 * f < (q.den : ℤ) then ⌊q⌋
  else if (q.den : ℤ) < 2 * f then ⌊q⌋ + 1
  else if ⌊q⌋ % 2 = 0 then ⌊q⌋ else ⌊q⌋ + 1

/-- Models Python's `round(x, 2)`: banker's rounding to two decimal places. -/
def pyRound2 (x : ℚ) : ℚ :=
  mkRat (roundHalfEven (x * 100)) 100

/-- Models Python's `str.strip()`: drop leading and trailing whitespace. -/
def pyStrip (s : String) : String :=
  String.mk (((s.data.dropWhile Char.isWhitespace).reverse.dropWhile
      Char.isWhitespace).reverse)

/-- Models Python's `str.lower()` on the ASCII strings the service handles. -/
def pyLower (s : String) : String :=
  String.mk (s.data.map Char.toLower)

/-- Models `s.strip().lower()`. -/
def pyStripLower (s : String) : String :=
  pyLower (pyStrip s)

/-- Models `s or d` for Python strings: the empty string is falsy. -/
def pyOrElse (s d : String) : String :=
  if s = "" then d else s

/-- Embeds `_determine_risk_level` (main.py lines 71-76). -/
def _determine_risk_level (probability : ℚ) : String :=
  if probability > mkRat 7 10 then "High"
  else if probability > mkRat 2 5 then "Medium"
  else "Low"

/-- The channel one-hot block of the engineered-feature dictionary
(keys `channel_Atm` … `channel_Web`). -/
structure ChannelFlags where
  channel_Atm : ℕ
  channel_Mobile : ℕ
  channel_Pos : ℕ
  channel_Web : ℕ
  deriving DecidableEq, Repr

/-- Embeds `_channel_feature_flags` (main.py lines 78-104): normalise with
`(channel or "").strip().lower()`, map atm/mobile/pos/web to their flag, and
default every other value (including empty) to the Web flag.  The Python
builds a lower-cased dict and renames the keys; the renamed dict is built
directly here. -/
def _channel_feature_flags (channel : String) : ChannelFlags :=
  let normalized := pyStripLower (pyOrElse channel "")
  if normalized = "atm" then ⟨1, 0, 0, 0⟩
  else if normalized = "mobile" then ⟨0, 1, 0, 0⟩
  else if normalized = "pos" then ⟨0, 0, 1, 0⟩
  else if normalized = "web" then ⟨0, 0, 0, 1⟩
  else ⟨0, 0, 0, 1⟩

/-- The KYC one-hot block of the engineered-feature dictionary. -/
structure KycFlags where
  kyc_verified_No : ℕ
  kyc_verified_Yes : ℕ
  deriving DecidableEq, Repr

/-- Embeds `_kyc_flags` (main.py lines 106-111): normalise with
`(kyc_status or "No").strip().lower()`; the No flag is 1 exactly when the
normalised value is `"no"` and the Yes flag is 1 exactly when it is
`"yes"`. -/
def _kyc_flags (kyc_status : String) : KycFlags :=
  let normalized := pyStripLower (pyOrElse kyc_status "No")
  { kyc_verified_No := if normalized = "no" then 1 else 0,
    kyc_verified_Yes := if normalized = "yes" then 1 else 0 }

/-- The engineered-feature dictionary built by
`_build_engineered_features_basic`. -/
structure EngineeredFeatures where
  account_age_days : ℤ
  transaction_amount : ℚ
  hour : ℤ
  weekday : ℕ
  month : ℕ
  is_high_value : ℕ
  transaction_amount_log : ℚ
  channel_Atm : ℕ
  channel_Mobile : ℕ
  channel_Pos : ℕ
  channel_Web : ℕ
  kyc_verified_No : ℕ
  kyc_verified_Yes : ℕ
  deriving DecidableEq, Repr

/-- Embeds `_build_engineered_features_basic` (main.py lines 113-133).
`log1p` stands for the external `np.log1p`, and `now_weekday`/`now_month`
for the two `datetime.utcnow()` reads (injected clock). -/
def _build_engineered_features_basic (log1p : ℚ → ℚ) (now_weekday now_month : ℕ)
    (transaction_amount : ℚ) (account_age_days : ℤ) (hour : ℤ)
    (channel : String) (kyc_verified : String) : EngineeredFeatures :=
  let cf := _channel_feature_flags channel
  let kf := _kyc_flags kyc_verified
  { account_age_days := account_age_days,
    transaction_amount := transaction_amount,
    hour := hour,
    weekday := now_weekday,
    month := now_month,
    is_high_value := if transaction_amount > 5000 then 1 else 0,
    transaction_amount_log :=
      if transaction_amount ≤ 0 then 0 else log1p transaction_amount,
    channel_Atm := cf.channel_Atm,
    channel_Mobile := cf.channel_Mobile,
    channel_Pos := cf.channel_Pos,
    channel_Web := cf.channel_Web,
    kyc_verified_No := kf.kyc_verified_No,
    kyc_verified_Yes := kf.kyc_verified_Yes }

/-- The dictionary returned by `_run_model_prediction`. -/
structure MLResult where
  prediction : ℤ
  fraud_probability : ℚ
  risk_level : String
  confidence : ℚ
  deriving DecidableEq, Repr

/-- Embeds `_run_model_prediction` (main.py lines 135-154) with the opaque
classifier's outputs (`model.predict`, `model.predict_proba` fraud column)
supplied as `pred` and `prob`.  The confidence is the legacy scheme
`round(abs(prob - 0.5) * 200, 2)`. -/
def _run_model_prediction (pred : ℤ) (prob : ℚ) : MLResult :=
  { prediction := pred,
    fraud_probability := prob,
    risk_level := _determine_risk_level prob,
    confidence := pyRound2 (|prob - mkRat 1 2| * 200) }

/-- Embeds `_derive_risk_factors` (main.py lines 156-174).  The appends run
in source order, so the output order is fixed. -/
def _derive_risk_factors (transaction_amount : ℚ) (account_age_days : ℤ)
    (hour : ℤ) (kyc_verified : String) (channel : String) : List String :=
  (if transaction_amount > 10000 then ["High transaction amount"] else [])
  ++ (if account_age_days < 30 then ["New account (< 30 days)"] else [])
  ++ (if hour < 6 ∨ hour > 22 then ["Unusual transaction time"] else [])
  ++ (if pyStripLower kyc_verified = "no" then ["KYC not verified"] else [])
  ++ (if (pyLower channel = "atm" ∨ pyLower channel = "pos")
        ∧ transaction_amount > 20000
      then ["High-value ATM transaction"] else [])

/-- The reason string produced by `_generate_fraud_reason`, by form.  Each
constructor stands for one of the five f-strings of main.py lines 176-196,
carrying exactly the data interpolated into it:

* `multipleRisk factors` — "Multiple risk indicators detected: " followed by
  the comma-joined factors;
* `singleRisk factor` — "Risk factor identified: " followed by the factor;
* `highMlScore p` — "High ML fraud risk score (p)" with `p` already rounded
  to two decimals;
* `moderateRisk p` — "Moderate fraud risk detected (score: p)", `p` rounded;
* `lowRisk amount` — "Low fraud risk. Normal transaction pattern for amount
  $amount".
-/
inductive FraudReason where
  | multipleRisk (factors : List String)
  | singleRisk (factor : String)
  | highMlScore (p : ℚ)
  | moderateRisk (p : ℚ)
  | lowRisk (amount : ℚ)
  deriving DecidableEq, Repr

/-- Embeds `_generate_fraud_reason` (main.py lines 176-196).  The risk-factor
branches are only reachable when `prediction == 1`; a legitimate verdict
always produces the low-risk form. -/
def _generate_fraud_reason (prediction : ℤ) (risk_factors : List String)
    (fraud_probability : ℚ) (transaction_amount : ℚ) : FraudReason :=
  if prediction = 1 then
    if 2 ≤ risk_factors.length then .multipleRisk risk_factors
    else if risk_factors.length = 1 then .singleRisk (risk_factors.headD "")
    else if fraud_probability ≥ mkRat 7 10 then
      .highMlScore (pyRound2 fraud_probability)
    else .moderateRisk (pyRound2 fraud_probability)
  else .lowRisk transaction_amount

/-- Embeds the rule block of `_apply_rule_based_detection`
(main.py lines 219-243): the six business rules, appended in source order. -/
def _rule_flags (transaction_amount : ℚ) (account_age_days : ℤ) (hour : ℤ)
    (kyc_verified : String) (channel : String) : List String :=
  (if transaction_amount > 10000 ∧ account_age_days < 30
    then ["HIGH_VALUE_NEW_ACCOUNT"] else [])
  ++ (if pyStripLower kyc_verified = "no" ∧ transaction_amount > 5000
    then ["UNVERIFIED_KYC_HIGH_AMOUNT"] else [])
  ++ (if hour ≥ 2 ∧ hour ≤ 5 ∧ transaction_amount > 3000
    then ["UNUSUAL_HOUR"] else [])
  ++ (if transaction_amount > 50000 then ["VERY_HIGH_AMOUNT"] else [])
  ++ (if account_age_days < 7 ∧ pyStripLower kyc_verified = "no"
    then ["NEW_ACCOUNT_UNVERIFIED"] else [])
  ++ (if (pyLower channel = "atm" ∨ pyLower channel = "pos")
        ∧ transaction_amount > 20000
      then ["HIGH_ATM_WITHDRAWAL"] else [])

/-- Embeds `_apply_rule_based_detection` (main.py lines 198-267): compute the
rule flags, fuse them with the classifier verdict (first matching branch
wins), derive the display risk factors and generate the reason.  Returns
`(final_prediction, rule_flags, reason)` as the Python does. -/
def _apply_rule_based_detection (transaction_amount : ℚ)
    (account_age_days : ℤ) (hour : ℤ) (kyc_verified : String)
    (channel : String) (ml_prediction : ℤ) (ml_probability : ℚ) :
    ℤ × List String × FraudReason :=
  let rule_flags :=
    _rule_flags transaction_amount account_age_days hour kyc_verified channel
  let rule_triggered := rule_flags.length > 0
  let final_prediction : ℤ :=
    if rule_triggered ∧ ml_probability > mkRat 3 10 then 1
    else if ml_probability ≥ mkRat 7 10 then 1
    else if rule_triggered ∧ ml_probability > mkRat 1 5 then 1
    else ml_prediction
  let risk_factors :=
    _derive_risk_factors transaction_amount account_age_days hour
      kyc_verified channel
  let reason :=
    _generate_fraud_reason final_prediction risk_factors ml_probability
      transaction_amount
  (final_prediction, rule_flags, reason)

/-- Restates the decision-fusion policy in the spec's words (section 4.5),
over an arbitrary rule-flag list: rules plus probability above 0.3 force
fraud; else probability at least 0.7 forces fraud; else rules plus
probability above 0.2 force fraud; else the classifier's label stands. -/
def fuseSpec (rule_flags : List String) (ml_label : ℤ) (ml_probability : ℚ) :
    ℤ :=
  if rule_flags ≠ [] ∧ ml_probability > mkRat 3 10 then 1
  else if ml_probability ≥ mkRat 7 10 then 1
  else if rule_flags ≠ [] ∧ ml_probability > mkRat 1 5 then 1
  else ml_label

/-- The request model `EnhancedPredictionInput` (main.py lines 317-323). -/
structure EnhancedPredictionInput where
  customer_id : String
  account_age_days : ℤ
  transaction_amount : ℚ
  channel : String
  kyc_verified : String
  hour : ℤ
  deriving DecidableEq, Repr

/-- Models the result dictionary built by `process_single_transaction`
(simulation.py lines 92-150).  The success dictionary's `location` and
`timestamp` keys (a random city / wall-clock read) are the only keys not
carried here.  The error dictionary holds only `transaction_id`, `error`,
`prediction`, `fraud_probability`, `risk_level` and `confidence`; every
other field of an error result is set below to the `.get` default that
every later reader of the dictionary applies. -/
structure SimResult where
  transaction_id : String
  customer_id : String
  error : Option String
  prediction : String
  is_fraud : ℕ
  fraud_probability : ℚ
  risk_level : String
  confidence : ℚ
  risk_factors : List String
  risk_factor_count : ℕ
  raw_model_prediction : String
  raw_model_probability : ℚ
  demo_boosted : Bool
  simulation_override : Bool
  transaction_amount : ℚ
  channel : String
  hour : ℤ
  account_age_days : ℤ
  kyc_verified : String
  deriving DecidableEq, Repr

/-- Modelled from the spec: `_apply_demo_boost` is imported by
simulation.py (line 98) from the main module, but its definition is not
present under the repository's files.  Spec section 4.5 describes it: if the
risk-factor count is at least 2, force label = 1, inflate the probability by
0.15 per factor capped at 0.99, force risk_level to "High", and recompute
the confidence from the new probability (the enhanced scheme
`round(prob * 100, 2)` used throughout the simulation pipeline). -/
def _apply_demo_boost (prediction : MLResult) (risk_factors : List String) :
    MLResult :=
  if 2 ≤ risk_factors.length then
    let newProb :=
      min (mkRat 99 100)
        (prediction.fraud_probability + mkRat 3 20 * risk_factors.length)
    { prediction := 1,
      fraud_probability := newProb,
      risk_level := "High",
      confidence := pyRound2 (newProb * 100) }
  else prediction

/-- Embeds the success path of `process_single_transaction`
(simulation.py lines 102-141): engineered features feed the opaque
classifier (outputs injected as `ml_pred`, `ml_prob`), display risk factors
are derived, the demo boost is applied, and the result dictionary is
assembled. -/
def process_single_transaction_ok (t : EnhancedPredictionInput)
    (ml_pred : ℤ) (ml_prob : ℚ) : SimResult :=
  let prediction0 := _run_model_prediction ml_pred ml_prob
  let risk_factors :=
    _derive_risk_factors t.transaction_amount t.account_age_days t.hour
      t.kyc_verified t.channel
  let raw_prediction := prediction0.prediction
  let raw_probability := prediction0.fraud_probability
  let prediction := _apply_demo_boost prediction0 risk_factors
  { transaction_id := t.customer_id,
    customer_id := t.customer_id,
    error := none,
    prediction := if prediction.prediction = 1 then "Fraud" else "Legitimate",
    is_fraud := if prediction.prediction = 1 then 1 else 0,
    fraud_probability := prediction.fraud_probability,
    risk_level := prediction.risk_level,
    confidence := prediction.confidence,
    risk_factors := risk_factors,
    risk_factor_count := risk_factors.length,
    raw_model_prediction :=
      if raw_prediction = 1 then "Fraud" else "Legitimate",
    raw_model_probability := raw_probability,
    demo_boosted := decide (prediction.prediction = 1 ∧ raw_prediction = 0),
    simulation_override := false,
    transaction_amount := t.transaction_amount,
    channel := t.channel,
    hour := t.hour,
    account_age_days := t.account_age_days,
    kyc_verified := t.kyc_verified }

/-- One element of a batch request, as fed to
`process_single_transaction`: the outcome of
`EnhancedPredictionInput(**txn_data)` (pydantic validation is external, its
success or failure enters as `parsed`), the `txn_data.get("customer_id",
"unknown")` fallback used by the error path, and the opaque classifier's
outputs for the parsed transaction. -/
structure BatchItem where
  parsed : Except String EnhancedPredictionInput
  fallback_id : String
  ml_pred : ℤ
  ml_prob : ℚ

/-- The error result built by the `except` branch of
`process_single_transaction` (simulation.py lines 142-150).  Fields after
`confidence` are absent from the Python dictionary; the values used here are
the `.get` defaults every later reader applies (`risk_factor_count` 0,
`raw_model_probability` 0.0, falsy `simulation_override`, `setdefault`
empty `risk_factors`). -/
def error_result (fallback_id : String) (e : String) : SimResult :=
  { transaction_id := fallback_id,
    customer_id := fallback_id,
    error := some e,
    prediction := "Error",
    is_fraud := 0,
    fraud_probability := 0,
    risk_level := "Unknown",
    confidence := 0,
    risk_factors := [],
    risk_factor_count := 0,
    raw_model_prediction := "",
    raw_model_probability := 0,
    demo_boosted := false,
    simulation_override := false,
    transaction_amount := 0,
    channel := "Mobile",
    hour := 0,
    account_age_days := 0,
    kyc_verified := "No" }

/-- Embeds `process_single_transaction` (simulation.py lines 92-150): the
try/except converts a failing item into an error result instead of
propagating. -/
def process_single_transaction (item : BatchItem) : SimResult :=
  match item.parsed with
  | .ok t => process_single_transaction_ok t item.ml_pred item.ml_prob
  | .error e => error_result item.fallback_id e

/-- Embeds the chunk loop of `run_batch_simulation` (simulation.py lines
62-70): slices of size `concurrency` are scored (concurrently in Python,
but each item independently) and the chunk results extend the batch result
list in order.  Python's `range(0, n, 0)` raises before any work, so the
`concurrency = 0` guard (returning nothing) is unreachable under the
positive-concurrency hypothesis used by every theorem below. -/
def _process_chunks (concurrency : ℕ) (items : List BatchItem) :
    List SimResult :=
  if hc : concurrency = 0 then []
  else
    match items with
    | [] => []
    | x :: xs =>
      ((x :: xs).take concurrency).map process_single_transaction
        ++ _process_chunks concurrency ((x :: xs).drop concurrency)
termination_by items.length
decreasing_by
  simp only [List.length_drop, List.length_cons]
  omega

/-- Embeds `_label_from_probability` (simulation.py lines 213-218). -/
def _label_from_probability (probability : ℚ) : String :=
  if probability > mkRat 7 10 then "High"
  else if probability > mkRat 2 5 then "Medium"
  else "Low"

/-- Embeds the bound computation of `_enforce_target_fraud_ratio`
(simulation.py lines 162-165): `lb0 = max(1, int(round(total * 0.09)))`,
`ub0 = max(lb0, int(round(total * 0.15)))`, then both are clamped to
`total`.  Returns `(lower_bound, upper_bound)`; the target fraud count is
drawn by `random.randint(lower_bound, upper_bound)`. -/
def _ratio_bounds (total : ℕ) : ℕ × ℕ :=
  let lb0 := max 1 (roundHalfEven ((total : ℚ) * mkRat 9 100)).toNat
  let ub0 := max lb0 (roundHalfEven ((total : ℚ) * mkRat 3 20)).toNat
  let lb := min lb0 total
  let ub := min (max ub0 lb) total
  (lb, ub)

/-- The deficit-branch override (simulation.py lines 183-193): flip a
legitimate entry to fraud, raise its probability to
`min(0.97, max(current, raw + 0.2))`, recompute risk level and confidence,
append the synthetic risk factor and mark the override. -/
def _flip_to_fraud (entry : SimResult) : SimResult :=
  let p := min (mkRat 97 100)
    (max entry.fraud_probability (entry.raw_model_probability + mkRat 1 5))
  { entry with
    prediction := "Fraud",
    fraud_probability := p,
    risk_level := _label_from_probability p,
    confidence := pyRound2 (p * 100),
    risk_factors := entry.risk_factors ++ ["Simulation anomaly injection"],
    simulation_override := true,
    is_fraud := 1 }

/-- The surplus-branch override (simulation.py lines 203-210): flip a fraud
entry to legitimate, cap its probability at `min(raw, 0.35)`, recompute risk
level and confidence, append the normalization factor and mark the
override. -/
def _flip_to_legitimate (entry : SimResult) : SimResult :=
  let p := min entry.raw_model_probability (mkRat 7 20)
  { entry with
    prediction := "Legitimate",
    fraud_probability := p,
    risk_level := _label_from_probability p,
    confidence := pyRound2 (p * 100),
    risk_factors := entry.risk_factors ++ ["Simulation normalization"],
    simulation_override := true,
    is_fraud := 0 }

/-- The deficit ranking (simulation.py lines 176-182): candidates sort by
`(risk_factor_count, raw_model_probability)` descending.  `a` may stand
before `b` exactly when `a`'s key is lexicographically at least `b`'s;
Python's sort is stable, so equal keys keep their original order, which the
stable insertion sort below reproduces. -/
def _deficit_rank (a b : ℕ × SimResult) : Prop :=
  b.2.risk_factor_count < a.2.risk_factor_count
    ∨ (b.2.risk_factor_count = a.2.risk_factor_count
        ∧ b.2.raw_model_probability ≤ a.2.raw_model_probability)

instance (a b : ℕ × SimResult) : Decidable (_deficit_rank a b) := by
  unfold _deficit_rank; infer_instance

/-- The surplus ranking (simulation.py lines 196-202): candidates sort
ascending by `(0 if simulation_override else 1, raw_model_probability)`, so
already-overridden entries are reversed first. -/
def _surplus_rank (a b : ℕ × SimResult) : Prop :=
  (if a.2.simulation_override then (0 : ℕ) else 1)
      < (if b.2.simulation_override then (0 : ℕ) else 1)
    ∨ ((if a.2.simulation_override then (0 : ℕ) else 1)
          = (if b.2.simulation_override then (0 : ℕ) else 1)
        ∧ a.2.raw_model_probability ≤ b.2.raw_model_probability)

instance (a b : ℕ × SimResult) : Decidable (_surplus_rank a b) := by
  unfold _surplus_rank; infer_instance

/-- The deficit branch of `_enforce_target_fraud_ratio` (simulation.py
lines 173-193).  Python sorts the list of references to the legitimate
entries and mutates the first `deficit` of them in place; here the entries
are tracked by position (`enum`), the selected positions are computed from
the stable sort, and the result list is rebuilt with those positions
flipped. -/
def _deficit_pass (deficit : ℕ) (results : List SimResult) :
    List SimResult :=
  let candidates := results.enum.filter
    (fun p => p.2.prediction == "Legitimate")
  let selected :=
    ((candidates.insertionSort _deficit_rank).take deficit).map Prod.fst
  results.mapIdx (fun i r => if i ∈ selected then _flip_to_fraud r else r)

/-- The surplus branch of `_enforce_target_fraud_ratio` (simulation.py
lines 194-210), tracked by position like the deficit branch. -/
def _surplus_pass (surplus : ℕ) (results : List SimResult) :
    List SimResult :=
  let candidates := results.enum.filter
    (fun p => p.2.prediction == "Fraud")
  let selected :=
    ((candidates.insertionSort _surplus_rank).take surplus).map Prod.fst
  results.mapIdx
    (fun i r => if i ∈ selected then _flip_to_legitimate r else r)

/-- Embeds `_enforce_target_fraud_ratio` (simulation.py lines 153-210).
The random draw `target = random.randint(lower_bound, upper_bound)` is
injected as the `target` argument (the spec's design note requires the
random source to be injectable); the bounds themselves are `_ratio_bounds`.
The Python's dead guard `if upper_bound == 0: return` is unreachable
(`upper_bound ≥ lower_bound ≥ 1` once the list is non-empty) and the two
`total == 0` early returns collapse into the emptiness test. -/
def _enforce_target_fraud_ratio (target : ℕ) (results : List SimResult) :
    List SimResult :=
  if results.isEmpty then results
  else
    let current_fraud := results.countP (fun r => r.prediction == "Fraud")
    if current_fraud < target then
      _deficit_pass (target - current_fraud) results
    else if target < current_fraud then
      _surplus_pass (current_fraud - target) results
    else results

/-- Embeds the overall result pipeline of `run_batch_simulation`
(simulation.py lines 55-90): chunked scoring followed by the in-place
ratio-enforcement pass over the whole batch. -/
def run_batch_simulation (target concurrency : ℕ)
    (items : List BatchItem) : List SimResult :=
  _enforce_target_fraud_ratio target (_process_chunks concurrency items)

/-- The capacity of the rolling overlay buffer,
`SIMULATION_BUFFER_LIMIT = 500` (simulation.py line 12). -/
def SIMULATION_BUFFER_LIMIT : ℕ := 500

/-- Models one `SIMULATION_BUFFER.append(entry)` on a
`deque(maxlen=limit)` (simulation.py lines 13 and 244): the entry joins on
the right and, past capacity, the oldest entries fall off the left. -/
def bufferAppend (limit : ℕ) (buf : List α) (e : α) : List α :=
  let b := buf ++ [e]
  if limit < b.length then b.drop (b.length - limit) else b

/-- Models the insertion loop of `_update_simulation_overlay`
(simulation.py lines 226-244): each batch entry is appended to the rolling
buffer in order. -/
def updateSimulationOverlay (buf : List α) (entries : List α) : List α :=
  entries.foldl (bufferAppend SIMULATION_BUFFER_LIMIT) buf

/-- Embeds the snapshot read of `get_simulation_overlay` (simulation.py
lines 34-44): a non-positive or over-limit `limit` is replaced by the buffer
limit, and `list(SIMULATION_BUFFER)[-limit:]` keeps the last `limit` entries
in insertion order. -/
def overlaySnapshot (buf : List α) (limit : ℤ) : List α :=
  let l : ℕ :=
    if limit ≤ 0 ∨ limit > (SIMULATION_BUFFER_LIMIT : ℤ) then
      SIMULATION_BUFFER_LIMIT
    else limit.toNat
  buf.drop (buf.length - l)

/-! ### Sample inputs used by the concrete witnesses -/

/-- A concrete all-fields legitimate result, as the scoring path would
produce for a low-risk transaction. -/
def sample_legit : SimResult :=
  { transaction_id := "T1",
    customer_id := "T1",
    error := none,
    prediction := "Legitimate",
    is_fraud := 0,
    fraud_probability := mkRat 1 10,
    risk_level := "Low",
    confidence := 10,
    risk_factors := [],
    risk_factor_count := 0,
    raw_model_prediction := "Legitimate",
    raw_model_probability := mkRat 1 10,
    demo_boosted := false,
    simulation_override := false,
    transaction_amount := 500,
    channel := "Web",
    hour := 12,
    account_age_days := 365,
    kyc_verified := "Yes" }

/-- A concrete fraud result with raw probability 0.5. -/
def sample_fraud : SimResult :=
  { transaction_id := "T2",
    customer_id := "T2",
    error := none,
    prediction := "Fraud",
    is_fraud := 1,
    fraud_probability := mkRat 9 10,
    risk_level := "High",
    confidence := 90,
    risk_factors := ["High transaction amount"],
    risk_factor_count := 1,
    raw_model_prediction := "Fraud",
    raw_model_probability := mkRat 1 2,
    demo_boosted := false,
    simulation_override := false,
    transaction_amount := 60000,
    channel := "Web",
    hour := 12,
    account_age_days := 400,
    kyc_verified := "Yes" }

/-- A batch item whose pydantic construction failed. -/
def sample_error_item : BatchItem :=
  { parsed := Except.error "missing required field", fallback_id := "unknown",
    ml_pred := 0, ml_prob := 0 }

/-- A batch item that parses and scores normally. -/
def sample_ok_item : BatchItem :=
  { parsed := Except.ok ⟨"C9", 365, 5000, "Web", "Yes", 14⟩,
    fallback_id := "C9", ml_pred := 0, ml_prob := mkRat 1 10 }

/-! ### Arithmetic helpers -/

theorem mkRat_eq_int_div (n : ℤ) (d : ℕ) : mkRat n d = (n : ℚ) / (d : ℚ) := by
  rw [Rat.mkRat_eq_divInt, Rat.divInt_eq_div]
  norm_cast

theorem roundHalfEven_intCast (n : ℤ) : roundHalfEven ((n : ℚ)) = n := by
  simp [roundHalfEven, Int.floor_intCast]

theorem roundHalfEven_le (q : ℚ) (n : ℤ) (h : q ≤ (n : ℚ)) :
    roundHalfEven q ≤ n := by
  have hfl : ⌊q⌋ ≤ n := by
    have := Int.floor_mono h
    rwa [Int.floor_intCast] at this
  simp only [roundHalfEven]
  split_ifs with h1 h2 h3
  · exact hfl
  · by_contra hn
    have hfn : ⌊q⌋ = n := by omega
    have hm : (n : ℚ) = q := by
      refine le_antisymm ?_ h
      rw [← hfn]
      exact Int.floor_le q
    have hnum : q.num = n := by rw [← hm]; simp
    have hden : q.den = 1 := by rw [← hm]; simp
    rw [hnum, hden, hfn] at h2
    simp at h2
  · exact hfl
  · by_contra hn
    have hfn : ⌊q⌋ = n := by omega
    have hm : (n : ℚ) = q := by
      refine le_antisymm ?_ h
      rw [← hfn]
      exact Int.floor_le q
    have hnum : q.num = n := by rw [← hm]; simp
    have hden : q.den = 1 := by rw [← hm]; simp
    rw [hnum, hden, hfn] at h1
    simp at h1

theorem pyRound2_le_intCast (y : ℚ) (n : ℤ) (h : y ≤ (n : ℚ)) :
    pyRound2 y ≤ (n : ℚ) := by
  unfold pyRound2
  rw [mkRat_eq_int_div]
  rw [div_le_iff₀ (by norm_num : (0:ℚ) < ((100 : ℕ) : ℚ))]
  have h1 : y * 100 ≤ ((n * 100 : ℤ) : ℚ) := by push_cast; linarith
  have h2 := roundHalfEven_le (y * 100) (n * 100) h1
  calc (roundHalfEven (y * 100) : ℚ) ≤ ((n * 100 : ℤ) : ℚ) := by
        exact_mod_cast h2
    _ = (n : ℚ) * ((100 : ℕ) : ℚ) := by push_cast; ring

/-! ### C1 — one-hot flag invariant of the Feature Builder -/

/-- C1 (counterexample): the claim "exactly one of the two KYC flags is 1,
and any value other than yes sets the KYC-not-verified flag to 1" fails on
the code: for the unrecognized non-empty KYC value "maybe" the Feature
Builder leaves both KYC flags 0. -/
theorem C1_counterexample :
    (_build_engineered_features_basic id 0 0 100 365 12 "Web"
        "maybe").kyc_verified_No = 0
    ∧ (_build_engineered_features_basic id 0 0 100 365 12 "Web"
        "maybe").kyc_verified_Yes = 0 := by
  decide

/-- C1 (amended): for every channel and KYC input the Feature Builder sets
exactly one of the four channel flags to 1 (the rest 0); the two KYC flags
are each 0 or 1 with at most one set, and the assignment is by value: the
KYC-not-verified flag is 1 exactly when the normalised KYC value
(lower-cased, stripped, empty defaulting to "No") is "no", the
KYC-verified flag is 1 exactly when it is "yes" — so empty input sets the
not-verified flag — and both flags are 0 exactly when the value is neither
"no" nor "yes". -/
theorem C1_flag_invariant (log1p : ℚ → ℚ) (wd mo : ℕ) (amount : ℚ)
    (age hr : ℤ) (channel kyc_status : String) :
    (let F := _build_engineered_features_basic log1p wd mo amount age hr
        channel kyc_status
     ((F.channel_Atm, F.channel_Mobile, F.channel_Pos, F.channel_Web)
          = (1, 0, 0, 0)
        ∨ (F.channel_Atm, F.channel_Mobile, F.channel_Pos, F.channel_Web)
          = (0, 1, 0, 0)
        ∨ (F.channel_Atm, F.channel_Mobile, F.channel_Pos, F.channel_Web)
          = (0, 0, 1, 0)
        ∨ (F.channel_Atm, F.channel_Mobile, F.channel_Pos, F.channel_Web)
          = (0, 0, 0, 1))
      ∧ ((F.kyc_verified_No, F.kyc_verified_Yes) = (1, 0)
        ∨ (F.kyc_verified_No, F.kyc_verified_Yes) = (0, 1)
        ∨ (F.kyc_verified_No, F.kyc_verified_Yes) = (0, 0))
      ∧ (F.kyc_verified_No = 1 ↔
          pyStripLower (pyOrElse kyc_status "No") = "no")
      ∧ (F.kyc_verified_Yes = 1 ↔
          pyStripLower (pyOrElse kyc_status "No") = "yes")
      ∧ (kyc_status = "" → F.kyc_verified_No = 1)
      ∧ ((F.kyc_verified_No, F.kyc_verified_Yes) = (0, 0) ↔
          pyStripLower (pyOrElse kyc_status "No") ≠ "no"
            ∧ pyStripLower (pyOrElse kyc_status "No") ≠ "yes")) := by
  simp only [_build_engineered_features_basic, _channel_feature_flags,
    _kyc_flags]
  refine ⟨?_, ?_, ?_, ?_, ?_, ?_⟩
  · by_cases h1 : pyStripLower (pyOrElse channel "") = "atm" <;>
      by_cases h2 : pyStripLower (pyOrElse channel "") = "mobile" <;>
      by_cases h3 : pyStripLower (pyOrElse channel "") = "pos" <;>
      by_cases h4 : pyStripLower (pyOrElse channel "") = "web" <;>
      simp [h1, h2, h3, h4]
  · by_cases h1 : pyStripLower (pyOrElse kyc_status "No") = "no" <;>
      by_cases h2 : pyStripLower (pyOrElse kyc_status "No") = "yes" <;>
      simp_all
  · by_cases h1 : pyStripLower (pyOrElse kyc_status "No") = "no" <;>
      simp [h1]
  · by_cases h2 : pyStripLower (pyOrElse kyc_status "No") = "yes" <;>
      simp [h2]
  · intro hk
    subst hk
    simp only [pyOrElse]
    decide
  · by_cases h1 : pyStripLower (pyOrElse kyc_status "No") = "no" <;>
      by_cases h2 : pyStripLower (pyOrElse kyc_status "No") = "yes" <;>
      simp_all

/-! ### C2 — reason-generation priority order -/

/-- C2 (counterexample): the claim that two or more risk factors always
produce the "multiple risk indicators" reason, even when the final label is
legitimate, fails on the code: with final label 0, two risk factors and
probability 0.5 the reason is the low-risk form. -/
theorem C2_counterexample :
    2 ≤ (["High transaction amount", "KYC not verified"] : List String).length
    ∧ _generate_fraud_reason 0 ["High transaction amount", "KYC not verified"]
        (mkRat 1 2) 100 = FraudReason.lowRisk 100
    ∧ _generate_fraud_reason 0 ["High transaction amount", "KYC not verified"]
        (mkRat 1 2) 100
      ≠ FraudReason.multipleRisk
          ["High transaction amount", "KYC not verified"] := by
  decide

/-- C2 (amended): the risk-factor priority order applies only to fraud
verdicts.  With final label 1: two or more risk factors give the
multiple-indicators form, exactly one gives the single-factor form, and only
with zero factors does the reason fall through to the high-ML form
(probability at least 0.7) or the moderate form.  With any other final label
the reason is always the low-risk form, regardless of risk factors and
probability. -/
theorem C2_reason_priority (pred : ℤ) (factors : List String)
    (p amount : ℚ) :
    (pred = 1 → 2 ≤ factors.length →
      _generate_fraud_reason pred factors p amount
        = FraudReason.multipleRisk factors)
    ∧ (pred = 1 → factors.length = 1 →
      _generate_fraud_reason pred factors p amount
        = FraudReason.singleRisk (factors.headD ""))
    ∧ (pred = 1 → factors = [] → mkRat 7 10 ≤ p →
      _generate_fraud_reason pred factors p amount
        = FraudReason.highMlScore (pyRound2 p))
    ∧ (pred = 1 → factors = [] → p < mkRat 7 10 →
      _generate_fraud_reason pred factors p amount
        = FraudReason.moderateRisk (pyRound2 p))
    ∧ (pred ≠ 1 →
      _generate_fraud_reason pred factors p amount
        = FraudReason.lowRisk amount) := by
  refine ⟨?_, ?_, ?_, ?_, ?_⟩
  · intro hp hl
    subst hp
    simp [_generate_fraud_reason, hl]
  · intro hp hl
    subst hp
    simp [_generate_fraud_reason, hl]
  · intro hp hl hge
    subst hp hl
    simp [_generate_fraud_reason, ge_iff_le, hge]
  · intro hp hl hlt
    subst hp hl
    simp [_generate_fraud_reason, ge_iff_le, not_le.mpr hlt]
  · intro hp
    simp [_generate_fraud_reason, hp]

/-- C2 (witness): the amended priority order evaluated on a fraud verdict
with two risk factors. -/
theorem C2_witness :
    _generate_fraud_reason 1 ["a", "b"] (mkRat 1 2) 100
      = FraudReason.multipleRisk ["a", "b"] :=
  (C2_reason_priority 1 ["a", "b"] (mkRat 1 2) 100).1 rfl (by decide)

/-! ### C6 — Rule Engine on the concrete input -/

/-- C6 (counterexample): on amount 15000, age 10, hour 3, KYC "No", channel
"ATM" the Rule Engine returns three flags; NEW_ACCOUNT_UNVERIFIED does not
fire (10 is not less than 7), contradicting the claimed four-flag
sequence. -/
theorem C6_counterexample :
    _rule_flags 15000 10 3 "No" "ATM"
      = ["HIGH_VALUE_NEW_ACCOUNT", "UNVERIFIED_KYC_HIGH_AMOUNT",
         "UNUSUAL_HOUR"]
    ∧ _rule_flags 15000 10 3 "No" "ATM"
      ≠ ["HIGH_VALUE_NEW_ACCOUNT", "UNVERIFIED_KYC_HIGH_AMOUNT",
         "UNUSUAL_HOUR", "NEW_ACCOUNT_UNVERIFIED"] := by
  decide

/-- C6 (amended): on amount 15000, age 10, hour 3, KYC "No", channel "ATM"
the Rule Engine returns exactly the ordered sequence
[HIGH_VALUE_NEW_ACCOUNT, UNVERIFIED_KYC_HIGH_AMOUNT, UNUSUAL_HOUR];
NEW_ACCOUNT_UNVERIFIED (age 10 is not below 7), VERY_HIGH_AMOUNT and the
high-channel-withdrawal flag do not fire. -/
theorem C6_rule_flags_concrete :
    _rule_flags 15000 10 3 "No" "ATM"
      = ["HIGH_VALUE_NEW_ACCOUNT", "UNVERIFIED_KYC_HIGH_AMOUNT",
         "UNUSUAL_HOUR"]
    ∧ "NEW_ACCOUNT_UNVERIFIED" ∉ _rule_flags 15000 10 3 "No" "ATM"
    ∧ "VERY_HIGH_AMOUNT" ∉ _rule_flags 15000 10 3 "No" "ATM"
    ∧ "HIGH_ATM_WITHDRAWAL" ∉ _rule_flags 15000 10 3 "No" "ATM" := by
  decide

/-! ### C7 — decision-fusion policy -/

/-- C7: for every transaction attribute set, classifier label and
probability, the final label of `_apply_rule_based_detection` equals the
spec's first-match-wins cascade `fuseSpec` evaluated on the computed rule
flags; in particular label 0, probability 0.35 and one rule flag yield
final label 1. -/
theorem C7_fusion_policy :
    (∀ (amount : ℚ) (age hr : ℤ) (kyc channel : String) (ml_label : ℤ)
        (p : ℚ),
      (_apply_rule_based_detection amount age hr kyc channel ml_label p).1
        = fuseSpec (_rule_flags amount age hr kyc channel) ml_label p)
    ∧ (_rule_flags 6000 100 12 "No" "Web").length = 1
    ∧ (_apply_rule_based_detection 6000 100 12 "No" "Web" 0 (mkRat 7 20)).1
        = 1 := by
  refine ⟨?_, by decide, by decide⟩
  intro amount age hr kyc channel ml_label p
  simp only [_apply_rule_based_detection, fuseSpec]
  have hl : (0 < (_rule_flags amount age hr kyc channel).length)
      ↔ _rule_flags amount age hr kyc channel ≠ [] := List.length_pos
  by_cases h1 : _rule_flags amount age hr kyc channel ≠ [] <;>
    by_cases h2 : p > mkRat 3 10 <;>
    by_cases h3 : p ≥ mkRat 7 10 <;>
    by_cases h4 : p > mkRat 1 5 <;>
    simp [gt_iff_lt, hl, h1, h2, h3, h4]

/-! ### C4 — demo-boost fusion on the batch-simulation path -/

/-- C4: whenever the derived risk-factor count is at least 2, the
batch-simulation scoring path forces the label to Fraud, sets the
probability to the boosted value (0.15 per factor, capped at 0.99), forces
the risk level to High, and recomputes the confidence from the boosted
probability. -/
theorem C4_demo_boost (t : EnhancedPredictionInput) (ml_pred : ℤ)
    (ml_prob : ℚ)
    (h2 : 2 ≤ (_derive_risk_factors t.transaction_amount t.account_age_days
        t.hour t.kyc_verified t.channel).length) :
    (process_single_transaction_ok t ml_pred ml_prob).prediction = "Fraud"
    ∧ (process_single_transaction_ok t ml_pred ml_prob).is_fraud = 1
    ∧ (process_single_transaction_ok t ml_pred ml_prob).fraud_probability
        = min (mkRat 99 100)
            (ml_prob + mkRat 3 20
              * (_derive_risk_factors t.transaction_amount t.account_age_days
                  t.hour t.kyc_verified t.channel).length)
    ∧ (process_single_transaction_ok t ml_pred ml_prob).risk_level = "High"
    ∧ (process_single_transaction_ok t ml_pred ml_prob).confidence
        = pyRound2 ((min (mkRat 99 100)
            (ml_prob + mkRat 3 20
              * (_derive_risk_factors t.transaction_amount t.account_age_days
                  t.hour t.kyc_verified t.channel).length)) * 100) := by
  simp only [process_single_transaction_ok, _apply_demo_boost,
    _run_model_prediction, if_pos h2]
  simp

/-! ### C5 — per-item error isolation in the batch -/

/-- Chunked scoring is itemwise: with positive concurrency the chunk loop
scores every item independently, in order. -/
theorem _process_chunks_eq_map (c : ℕ) (hc : 0 < c) :
    (items : List BatchItem) →
      _process_chunks c items = items.map process_single_transaction
  | [] => by
    rw [_process_chunks]
    simp [Nat.pos_iff_ne_zero.mp hc]
  | x :: xs => by
    have ih := _process_chunks_eq_map c hc ((x :: xs).drop c)
    rw [_process_chunks]
    rw [dif_neg (Nat.pos_iff_ne_zero.mp hc)]
    rw [ih, ← List.map_append, List.take_append_drop]
termination_by items => items.length
decreasing_by
  simp only [List.length_drop, List.length_cons]
  omega

/-- C5: for every batch and positive concurrency, the scoring phase
produces exactly one result per item (chunking never drops or aborts the
rest of the batch), and an item whose construction or validation failed is
converted into the error result for that item alone: prediction "Error",
probability 0, risk level "Unknown". -/
theorem C5_error_isolation (items : List BatchItem) (c : ℕ) (hc : 0 < c) :
    _process_chunks c items = items.map process_single_transaction
    ∧ ∀ item ∈ items, ∀ e, item.parsed = Except.error e →
        process_single_transaction item = error_result item.fallback_id e
        ∧ (process_single_transaction item).prediction = "Error"
        ∧ (process_single_transaction item).fraud_probability = 0
        ∧ (process_single_transaction item).risk_level = "Unknown" := by
  refine ⟨_process_chunks_eq_map c hc items, ?_⟩
  intro item _ e he
  refine ⟨by simp [process_single_transaction, he], ?_, ?_, ?_⟩ <;>
    simp [process_single_transaction, he, error_result]

/-! ### C8 — overlay buffer FIFO discipline -/

/-- A buffer append keeps exactly the last `limit` elements of the extended
list. -/
theorem bufferAppend_eq (limit : ℕ) (buf : List α) (e : α) :
    bufferAppend limit buf e
      = (buf ++ [e]).drop ((buf ++ [e]).length - limit) := by
  simp only [bufferAppend]
  split_ifs with h
  · rfl
  · rw [Nat.sub_eq_zero_of_le (not_lt.mp h), List.drop_zero]

/-- Dropping to the last `n` elements first does not change the last `n`
elements of an extension. -/
theorem drop_lastN_append (n : ℕ) (a b : List α) :
    ((a.drop (a.length - n)) ++ b).drop
        (((a.drop (a.length - n)) ++ b).length - n)
      = (a ++ b).drop ((a ++ b).length - n) := by
  by_cases h : a.length ≤ n
  · rw [Nat.sub_eq_zero_of_le h, List.drop_zero]
  · push_neg at h
    have hk : a.length - n ≤ a.length := Nat.sub_le _ _
    rw [← List.drop_append_of_le_length hk, List.drop_drop]
    congr 1
    simp only [List.length_drop, List.length_append]
    omega

/-- Folding buffer appends over a list of entries keeps exactly the last
`limit` entries, in order. -/
theorem foldl_bufferAppend (limit : ℕ) :
    ∀ (es buf : List α), buf.length ≤ limit →
      es.foldl (bufferAppend limit) buf
        = (buf ++ es).drop ((buf ++ es).length - limit)
  | [], buf, h => by
    simp [Nat.sub_eq_zero_of_le h]
  | e :: es, buf, h => by
    rw [List.foldl_cons]
    have hlen : (bufferAppend limit buf e).length ≤ limit := by
      rw [bufferAppend_eq]
      simp only [List.length_drop]
      omega
    rw [foldl_bufferAppend limit es (bufferAppend limit buf e) hlen,
      bufferAppend_eq, drop_lastN_append]
    simp [List.append_assoc]

/-- C8: inserting 501 entries into the empty overlay buffer leaves exactly
500, the single evicted entry being the oldest (the final buffer is the
input sequence minus its first element, in insertion order); a snapshot with
limit 500 returns exactly those entries in insertion order; and no insertion
sequence ever leaves the buffer holding more than the 500-entry capacity. -/
theorem C8_overlay_fifo {α : Type} (es : List α) (h : es.length = 501) :
    updateSimulationOverlay ([] : List α) es = es.drop 1
    ∧ (updateSimulationOverlay ([] : List α) es).length = 500
    ∧ overlaySnapshot (updateSimulationOverlay ([] : List α) es) 500
        = es.drop 1
    ∧ ∀ es₂ : List α,
        (updateSimulationOverlay ([] : List α) es₂).length
          ≤ SIMULATION_BUFFER_LIMIT := by
  have key : updateSimulationOverlay ([] : List α) es = es.drop 1 := by
    unfold updateSimulationOverlay
    rw [foldl_bufferAppend SIMULATION_BUFFER_LIMIT es [] (by simp)]
    simp [SIMULATION_BUFFER_LIMIT, h]
  have hlen : (updateSimulationOverlay ([] : List α) es).length = 500 := by
    rw [key, List.length_drop, h]
  refine ⟨key, hlen, ?_, ?_⟩
  · unfold overlaySnapshot
    rw [if_neg (by norm_num [SIMULATION_BUFFER_LIMIT])]
    rw [hlen]
    norm_num [key]
  · intro es₂
    unfold updateSimulationOverlay
    rw [foldl_bufferAppend SIMULATION_BUFFER_LIMIT es₂ [] (by simp)]
    simp only [List.length_drop, List.nil_append]
    omega

/-! ### C9 — the ratio pass never touches the raw model fields -/

/-- Flipping a selected subset of positions leaves any projection that the
flip preserves unchanged at every position. -/
theorem map_proj_mapIdx_flip {β : Type} (proj : SimResult → β)
    (flip : SimResult → SimResult) (hpres : ∀ r, proj (flip r) = proj r)
    (sel : List ℕ) (l : List SimResult) :
    (l.mapIdx (fun i r => if i ∈ sel then flip r else r)).map proj
      = l.map proj := by
  rw [List.mapIdx_eq_enum_map, List.map_map]
  conv_rhs => rw [← List.enum_map_snd l, List.map_map]
  apply List.map_congr_left
  intro a _
  by_cases h : a.1 ∈ sel <;> simp [Function.uncurry, h, hpres]

/-- C9: the ratio-enforcement pass, whatever the drawn target, leaves every
result's identifying and raw-model fields — in particular
`raw_model_prediction` and `raw_model_probability` — unchanged at every
position; only the adjusted fields (prediction, is_fraud,
fraud_probability, risk_level, confidence, risk_factors,
simulation_override) can differ. -/
theorem C9_raw_fields_frame (target : ℕ) (results : List SimResult) :
    (_enforce_target_fraud_ratio target results).map
        (fun r => (r.transaction_id, r.customer_id, r.error,
          r.risk_factor_count, r.raw_model_prediction,
          r.raw_model_probability, r.demo_boosted, r.transaction_amount,
          r.channel, r.hour, r.account_age_days, r.kyc_verified))
      = results.map
        (fun r => (r.transaction_id, r.customer_id, r.error,
          r.risk_factor_count, r.raw_model_prediction,
          r.raw_model_probability, r.demo_boosted, r.transaction_amount,
          r.channel, r.hour, r.account_age_days, r.kyc_verified)) := by
  simp only [_enforce_target_fraud_ratio]
  split
  · rfl
  · split
    · simp only [_deficit_pass]
      apply map_proj_mapIdx_flip
      intro r
      rfl
    · split
      · simp only [_surplus_pass]
        apply map_proj_mapIdx_flip
        intro r
        rfl
      · rfl

/-! ### C10 — surplus flips land at Low risk -/

/-- C10: any result that the ratio-enforcement pass flips from Fraud to
Legitimate ends with probability at most 0.35, risk level exactly "Low"
(the Medium and High thresholds 0.4 and 0.7 are out of reach), and
confidence at most 35. -/
theorem C10_surplus_flip_low (target : ℕ) (results : List SimResult)
    (i : ℕ) (r r' : SimResult) (hin : results[i]? = some r)
    (hout : (_enforce_target_fraud_ratio target results)[i]? = some r')
    (hfraud : r.prediction = "Fraud")
    (hlegit : r'.prediction = "Legitimate") :
    r'.fraud_probability ≤ mkRat 7 20
    ∧ r'.risk_level = "Low"
    ∧ r'.confidence ≤ (35 : ℚ) := by
  simp only [_enforce_target_fraud_ratio] at hout
  split at hout
  · rw [hin] at hout
    have : r' = r := by injection hout with h; exact h.symm
    rw [this, hfraud] at hlegit
    simp at hlegit
  · split at hout
    · simp only [_deficit_pass, List.getElem?_mapIdx, hin,
        Option.map_some'] at hout
      split at hout
      · have hr' : r' = _flip_to_fraud r := by
          injection hout with h
          exact h.symm
        rw [hr'] at hlegit
        simp [_flip_to_fraud] at hlegit
      · have hr' : r' = r := by
          injection hout with h
          exact h.symm
        rw [hr', hfraud] at hlegit
        simp at hlegit
    · split at hout
      · simp only [_surplus_pass, List.getElem?_mapIdx, hin,
          Option.map_some'] at hout
        split at hout
        · have hr' : r' = _flip_to_legitimate r := by
            injection hout with h
            exact h.symm
          subst hr'
          have hple : min r.raw_model_probability (mkRat 7 20)
              ≤ mkRat 7 20 := min_le_right _ _
          refine ⟨hple, ?_, ?_⟩
          · show _label_from_probability
                (min r.raw_model_probability (mkRat 7 20)) = "Low"
            unfold _label_from_probability
            rw [if_neg, if_neg]
            · intro hcon
              have h1 : mkRat 7 20 < mkRat 2 5 := by decide
              have := lt_of_le_of_lt hple h1
              exact absurd hcon (not_lt.mpr (le_of_lt this))
            · intro hcon
              have h1 : mkRat 7 20 < mkRat 7 10 := by decide
              have := lt_of_le_of_lt hple h1
              exact absurd hcon (not_lt.mpr (le_of_lt this))
          · show pyRound2
                ((min r.raw_model_probability (mkRat 7 20)) * 100)
                  ≤ (35 : ℚ)
            have hb : (min r.raw_model_probability (mkRat 7 20)) * 100
                ≤ ((35 : ℤ) : ℚ) := by
              have h1 : mkRat 7 20 = (7 : ℚ) / 20 := by
                rw [mkRat_eq_int_div]; norm_num
              rw [h1] at hple ⊢
              push_cast
              linarith
            have := pyRound2_le_intCast _ 35 hb
            exact_mod_cast this
        · have hr' : r' = r := by
            injection hout with h
            exact h.symm
          rw [hr', hfraud] at hlegit
          simp at hlegit
      · rw [hin] at hout
        have : r' = r := by injection hout with h; exact h.symm
        rw [this, hfraud] at hlegit
        simp at hlegit

/-! ### C3 — ratio enforcement lands the fraud count in the target band -/

/-- The code's target band for a batch of 100 is exactly [9, 15]. -/
theorem _ratio_bounds_100 : _ratio_bounds 100 = (9, 15) := by
  have h9 : ((100 : ℕ) : ℚ) * mkRat 9 100 = ((9 : ℤ) : ℚ) := by
    rw [mkRat_eq_int_div]
    push_cast
    norm_num
  have h15 : ((100 : ℕ) : ℚ) * mkRat 3 20 = ((15 : ℤ) : ℚ) := by
    rw [mkRat_eq_int_div]
    push_cast
    norm_num
  simp only [_ratio_bounds, h9, h15, roundHalfEven_intCast]
  decide

/-- Flipping a set of distinct legitimate positions to fraud makes the
fraud count exactly the number of flipped positions (on an all-legitimate
list). -/
theorem countP_mapIdx_flip (l : List SimResult) (sel : List ℕ)
    (flip : SimResult → SimResult)
    (hf : ∀ r, (flip r).prediction = "Fraud")
    (hnd : sel.Nodup) (hlt : ∀ i ∈ sel, i < l.length)
    (hleg : ∀ r ∈ l, r.prediction = "Legitimate") :
    ((l.mapIdx (fun i r => if i ∈ sel then flip r else r)).countP
        (fun r => r.prediction == "Fraud")) = sel.length := by
  rw [List.mapIdx_eq_enum_map, List.countP_map]
  have hcongr : ∀ x ∈ l.enum,
      (((fun r => r.prediction == "Fraud") ∘
        Function.uncurry (fun i r => if i ∈ sel then flip r else r)) x
          = true)
        ↔ ((fun x : ℕ × SimResult => decide (x.1 ∈ sel)) x = true) := by
    intro x hx
    obtain ⟨i, r⟩ := x
    have hr : r ∈ l := by
      have := List.mem_enum_iff_get?.mp hx
      exact List.get?_mem this
    by_cases hi : i ∈ sel <;>
      simp [Function.uncurry, hi, hf, hleg r hr]
  rw [List.countP_congr hcongr]
  have hmap : l.enum.countP (fun x => decide (x.1 ∈ sel))
      = (l.enum.map Prod.fst).countP (fun i => decide (i ∈ sel)) := by
    rw [List.countP_map]
    rfl
  rw [hmap, List.enum_map_fst, List.countP_eq_length_filter]
  have hperm : ((List.range l.length).filter
      (fun i => decide (i ∈ sel))).Perm sel := by
    rw [List.perm_ext_iff_of_nodup ((List.nodup_range _).filter _) hnd]
    intro a
    simp only [List.mem_filter, List.mem_range, decide_eq_true_eq]
    exact ⟨fun h => h.2, fun h => ⟨hlt a h, h⟩⟩
  exact hperm.length_eq

/-- C3: on a batch of 100 results that all scored successfully with no
fraud verdicts, the ratio-enforcement pass leaves a fraud count inside
[9, 15] for every admissible outcome of the random target draw. -/
theorem C3_ratio_enforcement (target : ℕ) (results : List SimResult)
    (hlen : results.length = 100)
    (hleg : ∀ r ∈ results, r.prediction = "Legitimate")
    (h1 : (_ratio_bounds 100).1 ≤ target)
    (h2 : target ≤ (_ratio_bounds 100).2) :
    9 ≤ (_enforce_target_fraud_ratio target results).countP
        (fun r => r.prediction == "Fraud")
    ∧ (_enforce_target_fraud_ratio target results).countP
        (fun r => r.prediction == "Fraud") ≤ 15 := by
  rw [_ratio_bounds_100] at h1 h2
  simp only at h1 h2
  have hne : results.isEmpty = false := by
    cases results with
    | nil => simp at hlen
    | cons a l => rfl
  have hcf : results.countP (fun r => r.prediction == "Fraud") = 0 := by
    rw [List.countP_eq_zero]
    intro r hr
    simp [hleg r hr]
  simp only [_enforce_target_fraud_ratio, hne, Bool.false_eq_true,
    if_false, hcf]
  rw [if_pos (by omega : 0 < target)]
  simp only [Nat.sub_zero, _deficit_pass]
  have hcand_eq : results.enum.filter
      (fun p => p.2.prediction == "Legitimate") = results.enum := by
    rw [List.filter_eq_self]
    intro p hp
    have hmem : p.2 ∈ results := by
      have := List.mem_enum_iff_get?.mp hp
      exact List.get?_mem this
    simp [hleg p.2 hmem]
  rw [hcand_eq]
  have hperm : (results.enum.insertionSort _deficit_rank).Perm
      results.enum := List.perm_insertionSort _ _
  have hlen_sorted : (results.enum.insertionSort _deficit_rank).length
      = 100 := by
    rw [hperm.length_eq, List.enum_length, hlen]
  have hfst : ((results.enum.insertionSort _deficit_rank).map
      Prod.fst).Perm (List.range 100) := by
    have hmapped := hperm.map Prod.fst
    rwa [List.enum_map_fst, hlen] at hmapped
  have hnd : (((results.enum.insertionSort _deficit_rank).take
      target).map Prod.fst).Nodup := by
    rw [List.map_take]
    exact (List.take_sublist _ _).nodup
      (hfst.nodup_iff.mpr (List.nodup_range _))
  have hbound : ∀ i ∈ ((results.enum.insertionSort _deficit_rank).take
      target).map Prod.fst, i < results.length := by
    intro i hi
    rw [List.map_take] at hi
    have hmem := (List.take_sublist _ _).subset hi
    have := hfst.mem_iff.mp hmem
    rw [hlen]
    exact List.mem_range.mp this
  have hlen_sel : (((results.enum.insertionSort _deficit_rank).take
      target).map Prod.fst).length = target := by
    rw [List.length_map, List.length_take, hlen_sorted]
    omega
  rw [countP_mapIdx_flip results _ _flip_to_fraud (fun r => rfl) hnd hbound
    hleg]
  omega

/-! ### Witnesses -/

/-- C3 (witness): a batch of 100 all-legitimate results with target 12 ends
with a fraud count in [9, 15]. -/
theorem C3_witness :
    (List.replicate 100 sample_legit).length = 100
    ∧ (∀ r ∈ List.replicate 100 sample_legit, r.prediction = "Legitimate")
    ∧ (_ratio_bounds 100).1 ≤ 12
    ∧ 12 ≤ (_ratio_bounds 100).2
    ∧ (9 ≤ (_enforce_target_fraud_ratio 12
          (List.replicate 100 sample_legit)).countP
            (fun r => r.prediction == "Fraud")
      ∧ (_enforce_target_fraud_ratio 12
          (List.replicate 100 sample_legit)).countP
            (fun r => r.prediction == "Fraud") ≤ 15) :=
  ⟨by simp,
   fun r hr => by rw [List.eq_of_mem_replicate hr]; rfl,
   by simp [_ratio_bounds_100],
   by simp [_ratio_bounds_100],
   C3_ratio_enforcement 12 (List.replicate 100 sample_legit) (by simp)
     (fun r hr => by rw [List.eq_of_mem_replicate hr]; rfl)
     (by simp [_ratio_bounds_100]) (by simp [_ratio_bounds_100])⟩

/-- C4 (witness): a transaction with two risk factors (amount 15000, age
10) is forced to Fraud with boosted probability, High risk and recomputed
confidence. -/
theorem C4_witness :
    2 ≤ (_derive_risk_factors 15000 10 12 "Yes" "Web").length
    ∧ ((process_single_transaction_ok ⟨"C1", 10, 15000, "Web", "Yes", 12⟩ 0
          (mkRat 1 10)).prediction = "Fraud"
      ∧ (process_single_transaction_ok ⟨"C1", 10, 15000, "Web", "Yes", 12⟩ 0
          (mkRat 1 10)).is_fraud = 1
      ∧ (process_single_transaction_ok ⟨"C1", 10, 15000, "Web", "Yes", 12⟩ 0
          (mkRat 1 10)).fraud_probability
          = min (mkRat 99 100)
              (mkRat 1 10 + mkRat 3 20
                * (_derive_risk_factors 15000 10 12 "Yes" "Web").length)
      ∧ (process_single_transaction_ok ⟨"C1", 10, 15000, "Web", "Yes", 12⟩ 0
          (mkRat 1 10)).risk_level = "High"
      ∧ (process_single_transaction_ok ⟨"C1", 10, 15000, "Web", "Yes", 12⟩ 0
          (mkRat 1 10)).confidence
          = pyRound2 ((min (mkRat 99 100)
              (mkRat 1 10 + mkRat 3 20
                * (_derive_risk_factors 15000 10 12 "Yes" "Web").length))
              * 100)) :=
  ⟨by decide,
   C4_demo_boost ⟨"C1", 10, 15000, "Web", "Yes", 12⟩ 0 (mkRat 1 10)
     (by decide)⟩

/-- C5 (witness): a two-item batch at concurrency 2 in which the first
item's validation failed is scored itemwise, the failed item becoming the
error result. -/
theorem C5_witness :
    (0 : ℕ) < 2
    ∧ (_process_chunks 2 [sample_error_item, sample_ok_item]
        = [sample_error_item, sample_ok_item].map process_single_transaction
      ∧ ∀ item ∈ [sample_error_item, sample_ok_item], ∀ e,
          item.parsed = Except.error e →
            process_single_transaction item
              = error_result item.fallback_id e
            ∧ (process_single_transaction item).prediction = "Error"
            ∧ (process_single_transaction item).fraud_probability = 0
            ∧ (process_single_transaction item).risk_level = "Unknown") :=
  ⟨by decide,
   C5_error_isolation [sample_error_item, sample_ok_item] 2 (by decide)⟩

/-- C8 (witness): inserting 501 entries leaves the last 500 in insertion
order, with the oldest evicted. -/
theorem C8_witness :
    (List.replicate 501 (0 : ℕ)).length = 501
    ∧ (updateSimulationOverlay ([] : List ℕ) (List.replicate 501 0)
        = (List.replicate 501 0).drop 1
      ∧ (updateSimulationOverlay ([] : List ℕ)
          (List.replicate 501 0)).length = 500
      ∧ overlaySnapshot
          (updateSimulationOverlay ([] : List ℕ) (List.replicate 501 0)) 500
          = (List.replicate 501 0).drop 1
      ∧ ∀ es₂ : List ℕ,
          (updateSimulationOverlay ([] : List ℕ) es₂).length
            ≤ SIMULATION_BUFFER_LIMIT) :=
  ⟨by rw [List.length_replicate],
   C8_overlay_fifo (List.replicate 501 (0 : ℕ))
     (by rw [List.length_replicate])⟩

/-- C10 (witness): with target 0, the single fraud result (raw probability
0.5) is flipped to Legitimate and lands at probability at most 0.35, Low
risk and confidence at most 35. -/
theorem C10_witness :
    ([sample_fraud] : List SimResult)[0]? = some sample_fraud
    ∧ (_enforce_target_fraud_ratio 0 [sample_fraud])[0]?
        = some (_flip_to_legitimate sample_fraud)
    ∧ sample_fraud.prediction = "Fraud"
    ∧ (_flip_to_legitimate sample_fraud).prediction = "Legitimate"
    ∧ ((_flip_to_legitimate sample_fraud).fraud_probability ≤ mkRat 7 20
      ∧ (_flip_to_legitimate sample_fraud).risk_level = "Low"
      ∧ (_flip_to_legitimate sample_fraud).confidence ≤ (35 : ℚ)) :=
  ⟨rfl, rfl, rfl, rfl,
   C10_surplus_flip_low 0 [sample_fraud] 0 sample_fraud
     (_flip_to_legitimate sample_fraud) rfl rfl rfl rfl⟩
